import Mathlib

/-!
Shallow embedding of the OpenSPH debugger-helper scripts
(src/helpers.py and src/qthelpers/helpers.py).

Each Python function qdump__* is a callback invoked by the host debugger
with a dumper context d and an inspected value.  We model the host's
responses to every query the scripts make (field access, dereference,
type lookup, template-argument resolution, expansion state) as fields of
a Host structure, and each callback as a pure function from the host and
the inspected value to the sequence of host calls it performs.  The
trace records the display calls (putValue, putEmptyValue, putNumChild,
putItem, putSubItem, putArrayData, the begin/end of a Children block)
and, additionally, every pointer dereference the callback performs, so
that absence of dereferences is an observable property of the trace.
-/

/-- Debugger type identifiers: type names as resolved by the host. -/
abbrev Ty := String

/-- A debuggee value as seen through the host dumper API: its address in
the debuggee, its integer interpretation (`.integer()` / the pointer
value), and its resolved type. -/
structure Val where
  address : Int
  ival : Int
  ty : Ty
deriving DecidableEq

/-- Embedding of `value.cast(t)`: reinterpret the same bytes at the same
address as type `t`. -/
def Val.cast (v : Val) (t : Ty) : Val := { v with ty := t }

/-- Key of a child item passed to putSubItem: a numeric index (the loop
counter of the array dumpers) or a component name such as "x". -/
inductive ChildKey where
  | idx (i : Nat)
  | name (s : String)
deriving DecidableEq

/-- The host debugger context `d`: the host's responses to every query
the scripts can make.  A dereference consults `deref`, a member access
`value["f"]` consults `field`, pointer arithmetic advances the integer
value by the byte stride the host assigns to the pointer's type. -/
structure Host where
  isExpanded : Bool
  lookupType : String → Ty
  templateArgument : Ty → Nat → Ty
  field : Val → String → Val
  deref : Val → Val
  ptrStride : Ty → Int
  memInt : Int → Int

/-- Embedding of `d.createValue(addr, t)`: a value of type `t` located at
the given address, whose integer interpretation is the host's memory
read at that address. -/
def Host.createValue (d : Host) (a : Int) (t : Ty) : Val :=
  { address := a, ival := d.memInt a, ty := t }

/-- Embedding of pointer arithmetic `p + n`: the pointer's integer value
advances by `n` times the byte stride of the pointer's type. -/
def Host.ptrAdd (d : Host) (p : Val) (n : Int) : Val :=
  { p with ival := p.ival + n * d.ptrStride p.ty }

/-- One host call made by a callback: the display primitives of the
dumper API, plus an explicit record of each pointer dereference. -/
inductive HostCall where
  | putEmptyValue
  | putNumChild (n : Int)
  | putValue (s : String)
  | putItem (v : Val)
  | putSubItem (k : ChildKey) (v : Val)
  | putArrayData (a : Int) (n : Nat) (t : Ty)
  | childrenBegin (n : Int) (t : Ty)
  | childrenEnd
  | derefCall (p : Val)
deriving DecidableEq

namespace Helpers

/-- src/helpers.py, qdump____m128: empty value, one child, and when
expanded the four floats at the value's address. -/
def qdump____m128 (d : Host) (value : Val) : List HostCall :=
  HostCall.putEmptyValue :: HostCall.putNumChild 1 ::
    (if d.isExpanded then
      [HostCall.putArrayData value.address 4 (d.lookupType "float")]
    else [])

/-- src/helpers.py, qdump____m128d: empty value, one child, and when
expanded the two doubles at the value's address. -/
def qdump____m128d (d : Host) (value : Val) : List HostCall :=
  HostCall.putEmptyValue :: HostCall.putNumChild 1 ::
    (if d.isExpanded then
      [HostCall.putArrayData value.address 2 (d.lookupType "double")]
    else [])

/-- src/helpers.py, qdump__Sph__AutoPtr: "nullptr" for a null ptr field,
otherwise delegate to the dereferenced pointee. -/
def qdump__Sph__AutoPtr (d : Host) (value : Val) : List HostCall :=
  let ptr := d.field value "ptr"
  if ptr.ival = 0 then
    [HostCall.putValue "nullptr"]
  else
    [HostCall.derefCall ptr, HostCall.putItem (d.deref ptr)]

/-- src/helpers.py, qdump__Sph__RawPtr: same body as AutoPtr. -/
def qdump__Sph__RawPtr (d : Host) (value : Val) : List HostCall :=
  let ptr := d.field value "ptr"
  if ptr.ival = 0 then
    [HostCall.putValue "nullptr"]
  else
    [HostCall.derefCall ptr, HostCall.putItem (d.deref ptr)]

/-- src/helpers.py, qdump__Sph__SharedPtr: same body as AutoPtr. -/
def qdump__Sph__SharedPtr (d : Host) (value : Val) : List HostCall :=
  let ptr := d.field value "ptr"
  if ptr.ival = 0 then
    [HostCall.putValue "nullptr"]
  else
    [HostCall.derefCall ptr, HostCall.putItem (d.deref ptr)]

/-- src/helpers.py, qdump__Sph__Optional: "NOTHING" when unused,
otherwise a value of the resolved template-argument type created at the
Optional object's own address. -/
def qdump__Sph__Optional (d : Host) (value : Val) : List HostCall :=
  let used := d.field value "used"
  if used.ival = 0 then
    [HostCall.putValue "NOTHING"]
  else
    let templateType := d.templateArgument value.ty 0
    let x := d.createValue value.address templateType
    [HostCall.putItem x]

/-- The for-loop body of the array dumpers: with `k` iterations left and
loop counter `i`, dereference `p`, emit child `i` cast to the template
type, advance `p` by one element and continue. -/
def subItems (d : Host) (templateType : Ty) : Val → Nat → Nat → List HostCall
  | _, _, 0 => []
  | p, i, k + 1 =>
      HostCall.derefCall p ::
        HostCall.putSubItem (ChildKey.idx i) ((d.deref p).cast templateType) ::
          subItems d templateType (d.ptrAdd p 1) (i + 1) k

/-- src/helpers.py, qdump__Sph__Array: report actSize children, a
summary "(n values)", and when expanded the actSize elements obtained by
walking the data pointer, each cast to the first template argument. -/
def qdump__Sph__Array (d : Host) (value : Val) : List HostCall :=
  let actsize := (d.field value "actSize").ival
  let p := d.field value "data"
  let innerType := p.ty
  let templateType := d.templateArgument value.ty 0
  HostCall.putNumChild actsize ::
    HostCall.putValue ("(" ++ toString actsize ++ " values)") ::
      (if d.isExpanded then
        HostCall.childrenBegin actsize innerType ::
          (subItems d templateType p 0 actsize.toNat ++ [HostCall.childrenEnd])
      else [])

/-- src/helpers.py, qdump__Sph__ArrayView: identical body to
qdump__Sph__Array. -/
def qdump__Sph__ArrayView (d : Host) (value : Val) : List HostCall :=
  let actsize := (d.field value "actSize").ival
  let p := d.field value "data"
  let innerType := p.ty
  let templateType := d.templateArgument value.ty 0
  HostCall.putNumChild actsize ::
    HostCall.putValue ("(" ++ toString actsize ++ " values)") ::
      (if d.isExpanded then
        HostCall.childrenBegin actsize innerType ::
          (subItems d templateType p 0 actsize.toNat ++ [HostCall.childrenEnd])
      else [])

/-- src/helpers.py, qdump__Sph__BasicVector: four children x, y, z, h
created at the value's address with a fixed stride of 8 bytes
(the source notes this would have to be 4 for floats). -/
def qdump__Sph__BasicVector (d : Host) (value : Val) : List HostCall :=
  let templateType := d.templateArgument value.ty 0
  let siz : Int := 8
  let x := d.createValue value.address templateType
  let y := d.createValue (value.address + siz) templateType
  let z := d.createValue (value.address + 2*siz) templateType
  let h := d.createValue (value.address + 3*siz) templateType
  HostCall.putNumChild 4 ::
    (if d.isExpanded then
      [HostCall.childrenBegin 4 templateType,
       HostCall.putSubItem (ChildKey.name "x") x,
       HostCall.putSubItem (ChildKey.name "y") y,
       HostCall.putSubItem (ChildKey.name "z") z,
       HostCall.putSubItem (ChildKey.name "h") h,
       HostCall.childrenEnd]
    else [])

/-- src/helpers.py, qdump__Sph__TracelessTensor: five double components
at consecutive 8-byte offsets from the value's address. -/
def qdump__Sph__TracelessTensor (d : Host) (value : Val) : List HostCall :=
  let templateType := d.lookupType "double"
  let siz : Int := 8
  let sxx := d.createValue value.address templateType
  let syy := d.createValue (value.address + siz) templateType
  let sxy := d.createValue (value.address + 2*siz) templateType
  let sxz := d.createValue (value.address + 3*siz) templateType
  let syz := d.createValue (value.address + 4*siz) templateType
  HostCall.putNumChild 5 ::
    (if d.isExpanded then
      [HostCall.childrenBegin 5 templateType,
       HostCall.putSubItem (ChildKey.name "sxx") sxx,
       HostCall.putSubItem (ChildKey.name "syy") syy,
       HostCall.putSubItem (ChildKey.name "sxy") sxy,
       HostCall.putSubItem (ChildKey.name "sxz") sxz,
       HostCall.putSubItem (ChildKey.name "syz") syz,
       HostCall.childrenEnd]
    else [])

/-- src/helpers.py, qdump__Sph__SymmetricTensor: three double components
at 8-byte offsets from the diag member and three from the off member. -/
def qdump__Sph__SymmetricTensor (d : Host) (value : Val) : List HostCall :=
  let templateType := d.lookupType "double"
  let diag := d.field value "diag"
  let off := d.field value "off"
  let siz : Int := 8
  let sxx := d.createValue diag.address templateType
  let syy := d.createValue (diag.address + siz) templateType
  let szz := d.createValue (diag.address + 2*siz) templateType
  let sxy := d.createValue off.address templateType
  let sxz := d.createValue (off.address + siz) templateType
  let syz := d.createValue (off.address + 2*siz) templateType
  HostCall.putNumChild 6 ::
    (if d.isExpanded then
      [HostCall.childrenBegin 6 templateType,
       HostCall.putSubItem (ChildKey.name "sxx") sxx,
       HostCall.putSubItem (ChildKey.name "syy") syy,
       HostCall.putSubItem (ChildKey.name "szz") szz,
       HostCall.putSubItem (ChildKey.name "sxy") sxy,
       HostCall.putSubItem (ChildKey.name "sxz") sxz,
       HostCall.putSubItem (ChildKey.name "syz") syz,
       HostCall.childrenEnd]
    else [])

end Helpers

namespace QtHelpers

/-- src/qthelpers/helpers.py, qdump____m128.  This file passes
`value.address` (the attribute form of the address accessor in the older
dumper API) where src/helpers.py calls `value.address()`; both denote
the inspected value's address, modelled by the same observation. -/
def qdump____m128 (d : Host) (value : Val) : List HostCall :=
  HostCall.putEmptyValue :: HostCall.putNumChild 1 ::
    (if d.isExpanded then
      [HostCall.putArrayData value.address 4 (d.lookupType "float")]
    else [])

/-- src/qthelpers/helpers.py, qdump____m128d. -/
def qdump____m128d (d : Host) (value : Val) : List HostCall :=
  HostCall.putEmptyValue :: HostCall.putNumChild 1 ::
    (if d.isExpanded then
      [HostCall.putArrayData value.address 2 (d.lookupType "double")]
    else [])

/-- The for-loop body of the qthelpers array dumper: as in helpers.py
but without the cast to the template-argument type. -/
def subItemsNoCast (d : Host) : Val → Nat → Nat → List HostCall
  | _, _, 0 => []
  | p, i, k + 1 =>
      HostCall.derefCall p ::
        HostCall.putSubItem (ChildKey.idx i) (d.deref p) ::
          subItemsNoCast d (d.ptrAdd p 1) (i + 1) k

/-- src/qthelpers/helpers.py, qdump__Sph__Array: reads actSize and
maxSize (the latter unused), declares actSize children, and when
expanded walks the data pointer; it emits no summary value and performs
no template-argument cast (the putValue call is commented out in the
source). -/
def qdump__Sph__Array (d : Host) (value : Val) : List HostCall :=
  let actsize := (d.field value "actSize").ival
  let _maxsize := (d.field value "maxSize").ival
  let p := d.field value "data"
  let innerType := p.ty
  HostCall.putNumChild actsize ::
    (if d.isExpanded then
      HostCall.childrenBegin actsize innerType ::
        (subItemsNoCast d p 0 actsize.toNat ++ [HostCall.childrenEnd])
    else [])

end QtHelpers

/-- Display calls that belong to a child of the node: the per-child
emissions putSubItem and putArrayData. -/
def HostCall.isChildCall : HostCall → Bool
  | .putSubItem _ _ => true
  | .putArrayData _ _ _ => true
  | _ => false

/-- Display calls describing the node itself: its value summary
(putValue, putEmptyValue, putItem) and its declared child count. -/
def HostCall.isNodeCall : HostCall → Bool
  | .putValue _ => true
  | .putEmptyValue => true
  | .putItem _ => true
  | .putNumChild _ => true
  | _ => false

/-- Display calls that put a readable value for the node itself. -/
def HostCall.isNodeDisplay : HostCall → Bool
  | .putValue _ => true
  | .putEmptyValue => true
  | .putItem _ => true
  | _ => false

/-- Recognizer for putSubItem calls. -/
def HostCall.isSubItem : HostCall → Bool
  | .putSubItem _ _ => true
  | _ => false

/-- The type of the child value put by a call, when the call puts one. -/
def HostCall.childValTy : HostCall → Option Ty
  | .putSubItem _ w => some w.ty
  | .putItem w => some w.ty
  | _ => none

/-- A concrete collapsed host used to evaluate the callbacks: an array
member actSize reading 2, a maxSize of 4, a data pointer, and memory
whose dereference at any pointer yields a value of type E. -/
def hostC : Host where
  isExpanded := false
  lookupType := fun s => s
  templateArgument := fun _ _ => "E"
  field := fun v s =>
    if s = "actSize" then { address := v.address, ival := 2, ty := "size_t" }
    else if s = "maxSize" then { address := v.address + 8, ival := 4, ty := "size_t" }
    else if s = "data" then { address := v.address + 16, ival := 1000, ty := "E*" }
    else { address := v.address, ival := 5, ty := "F" }
  deref := fun p => { address := p.ival, ival := 7, ty := "E" }
  ptrStride := fun _ => 8
  memInt := fun a => a + 1

/-- The same concrete host with the inspected node expanded. -/
def hostE : Host := { hostC with isExpanded := true }

/-- A concrete host whose every member access reads the integer 0, so
ptr and used members are null/unset. -/
def hostZ : Host :=
  { hostC with field := fun v s => { address := v.address, ival := 0, ty := s } }

/-- A concrete inspected value. -/
def val0 : Val := { address := 100, ival := 0, ty := "Sph::Array<E>" }

theorem Host.ptrAdd_ty (d : Host) (p : Val) (n : Int) : (d.ptrAdd p n).ty = p.ty := rfl

theorem Host.ptrAdd_zero (d : Host) (p : Val) : d.ptrAdd p 0 = p := by
  simp [Host.ptrAdd]

theorem Host.ptrAdd_ptrAdd (d : Host) (p : Val) (a b : Int) :
    d.ptrAdd (d.ptrAdd p a) b = d.ptrAdd p (a + b) := by
  simp [Host.ptrAdd]
  ring_nf

/-- The putSubItem calls of the array loop: one per iteration, indexed
consecutively, the i-th showing the dereference of the pointer advanced
by i elements, cast to the template type. -/
theorem subItems_filter_isSubItem (d : Host) (t : Ty) (p : Val) (i k : Nat) :
    (Helpers.subItems d t p i k).filter HostCall.isSubItem =
      (List.range k).map (fun j =>
        HostCall.putSubItem (ChildKey.idx (i + j)) ((d.deref (d.ptrAdd p j)).cast t)) := by
  induction k generalizing p i with
  | zero => simp [Helpers.subItems]
  | succ k ih =>
      rw [List.range_succ_eq_map]
      simp only [Helpers.subItems, List.filter_cons, List.map_cons, List.map_map]
      rw [ih]
      simp only [HostCall.isSubItem, Host.ptrAdd_zero, Nat.add_zero, Nat.cast_zero]
      refine List.cons_eq_cons.mpr ⟨rfl, ?_⟩
      apply List.map_congr_left
      intro j _
      simp only [Function.comp]
      rw [Host.ptrAdd_ptrAdd]
      congr 2
      · omega
      · congr 1
        push_cast
        ring_nf

/-- The array loop emits no node-level display calls. -/
theorem subItems_filter_isNodeCall (d : Host) (t : Ty) (p : Val) (i k : Nat) :
    (Helpers.subItems d t p i k).filter HostCall.isNodeCall = [] := by
  induction k generalizing p i with
  | zero => simp [Helpers.subItems]
  | succ k ih => simp [Helpers.subItems, HostCall.isNodeCall, List.filter_cons, ih]

/-- The qthelpers array loop emits no node-level display calls. -/
theorem subItemsNoCast_filter_isNodeCall (d : Host) (p : Val) (i k : Nat) :
    (QtHelpers.subItemsNoCast d p i k).filter HostCall.isNodeCall = [] := by
  induction k generalizing p i with
  | zero => simp [QtHelpers.subItemsNoCast]
  | succ k ih => simp [QtHelpers.subItemsNoCast, HostCall.isNodeCall, List.filter_cons, ih]

/-- Every child value put by the array loop has the template type. -/
theorem subItems_childValTy (d : Host) (t : Ty) (p : Val) (i k : Nat) :
    (Helpers.subItems d t p i k).filterMap HostCall.childValTy = List.replicate k t := by
  induction k generalizing p i with
  | zero => simp [Helpers.subItems]
  | succ k ih =>
      simp [Helpers.subItems, HostCall.childValTy, Val.cast, List.replicate_succ, ih]

/-- A dumper callback is lazily expandable: it emits per-child display
calls (putSubItem or putArrayData) only when the host reports the node
expanded, and the node-level calls it emits (value summary and declared
child count) do not depend on the expansion state. -/
def LazyExpandable (f : Host → Val → List HostCall) : Prop :=
  ∀ (d : Host) (v : Val),
    (d.isExpanded = false → (f d v).filter HostCall.isChildCall = []) ∧
    (∀ b : Bool, (f { d with isExpanded := b } v).filter HostCall.isNodeCall =
      (f d v).filter HostCall.isNodeCall)

/-- Claim C1, counterexample: the two files' qdump__Sph__Array callbacks
do not perform the same sequence of host display calls.  On a concrete
collapsed host whose actSize member reads 2, the src/helpers.py version
emits a summary putValue "(2 values)" that the qthelpers version does
not emit. -/
theorem array_dumpers_differ :
    Helpers.qdump__Sph__Array hostC val0 ≠ QtHelpers.qdump__Sph__Array hostC val0 := by
  decide

/-- Claim C1 (amended): qdump____m128 and qdump____m128d perform the
same sequence of host calls in both files (reading the address through
the attribute or the accessor call of the same observation), but
qdump__Sph__Array does not: the src/helpers.py version additionally
emits the summary putValue "(n values)" (and, when expanded, casts each
child to the resolved template argument); on a collapsed node its trace
is exactly the qthelpers trace followed by that putValue call. -/
theorem m128_dumpers_agree :
    (∀ (d : Host) (v : Val), Helpers.qdump____m128 d v = QtHelpers.qdump____m128 d v) ∧
    (∀ (d : Host) (v : Val), Helpers.qdump____m128d d v = QtHelpers.qdump____m128d d v) ∧
    (∀ (d : Host) (v : Val), d.isExpanded = false →
      Helpers.qdump__Sph__Array d v =
        QtHelpers.qdump__Sph__Array d v ++
          [HostCall.putValue ("(" ++ toString (d.field v "actSize").ival ++ " values)")]) := by
  refine ⟨fun d v => rfl, fun d v => rfl, fun d v h => ?_⟩
  simp [Helpers.qdump__Sph__Array, QtHelpers.qdump__Sph__Array, h]

/-- Claim C1, witness for the amended statement at a concrete input. -/
theorem m128_dumpers_agree_witness :
    Helpers.qdump__Sph__Array hostC val0 =
      QtHelpers.qdump__Sph__Array hostC val0 ++
        [HostCall.putValue ("(" ++ toString ((hostC.field val0 "actSize").ival) ++ " values)")] :=
  m128_dumpers_agree.2.2 hostC val0 rfl

/-- Claim C6, counterexample: the qthelpers qdump__Sph__Array callback
returns without producing any display value for the node (no putValue,
putEmptyValue or putItem), even on an expanded node: its putValue call
is commented out in the source. -/
theorem qthelpers_array_no_node_display :
    (QtHelpers.qdump__Sph__Array hostE val0).any HostCall.isNodeDisplay = false := by
  decide

/-- Claim C6 (amended): the __m128/__m128d callbacks of both files and
the AutoPtr, RawPtr, SharedPtr, Optional, Array and ArrayView callbacks
of src/helpers.py always emit a readable display value for the node
(putValue, putEmptyValue or putItem); the qthelpers Array callback and
the BasicVector/TracelessTensor/SymmetricTensor callbacks declare their
children without emitting one. -/
theorem node_display_always_emitted :
    (∀ (d : Host) (v : Val), (Helpers.qdump____m128 d v).any HostCall.isNodeDisplay = true) ∧
    (∀ (d : Host) (v : Val), (Helpers.qdump____m128d d v).any HostCall.isNodeDisplay = true) ∧
    (∀ (d : Host) (v : Val), (Helpers.qdump__Sph__AutoPtr d v).any HostCall.isNodeDisplay = true) ∧
    (∀ (d : Host) (v : Val), (Helpers.qdump__Sph__RawPtr d v).any HostCall.isNodeDisplay = true) ∧
    (∀ (d : Host) (v : Val), (Helpers.qdump__Sph__SharedPtr d v).any HostCall.isNodeDisplay = true) ∧
    (∀ (d : Host) (v : Val), (Helpers.qdump__Sph__Optional d v).any HostCall.isNodeDisplay = true) ∧
    (∀ (d : Host) (v : Val), (Helpers.qdump__Sph__Array d v).any HostCall.isNodeDisplay = true) ∧
    (∀ (d : Host) (v : Val), (Helpers.qdump__Sph__ArrayView d v).any HostCall.isNodeDisplay = true) ∧
    (∀ (d : Host) (v : Val), (QtHelpers.qdump____m128 d v).any HostCall.isNodeDisplay = true) ∧
    (∀ (d : Host) (v : Val), (QtHelpers.qdump____m128d d v).any HostCall.isNodeDisplay = true) := by
  refine ⟨fun d v => ?_, fun d v => ?_, fun d v => ?_, fun d v => ?_, fun d v => ?_,
    fun d v => ?_, fun d v => ?_, fun d v => ?_, fun d v => ?_, fun d v => ?_⟩
  · simp [Helpers.qdump____m128, HostCall.isNodeDisplay]
  · simp [Helpers.qdump____m128d, HostCall.isNodeDisplay]
  · by_cases h : (d.field v "ptr").ival = 0 <;>
      simp [Helpers.qdump__Sph__AutoPtr, h, HostCall.isNodeDisplay]
  · by_cases h : (d.field v "ptr").ival = 0 <;>
      simp [Helpers.qdump__Sph__RawPtr, h, HostCall.isNodeDisplay]
  · by_cases h : (d.field v "ptr").ival = 0 <;>
      simp [Helpers.qdump__Sph__SharedPtr, h, HostCall.isNodeDisplay]
  · by_cases h : (d.field v "used").ival = 0 <;>
      simp [Helpers.qdump__Sph__Optional, h, HostCall.isNodeDisplay]
  · simp [Helpers.qdump__Sph__Array, HostCall.isNodeDisplay]
  · simp [Helpers.qdump__Sph__ArrayView, HostCall.isNodeDisplay]
  · simp [QtHelpers.qdump____m128, HostCall.isNodeDisplay]
  · simp [QtHelpers.qdump____m128d, HostCall.isNodeDisplay]

/-- Claim C8: the three pointer-wrapper dumpers put the literal
"nullptr" and perform no dereference when the ptr member reads 0, and
any dereference they perform implies the ptr member was nonzero. -/
theorem ptr_wrappers_null_safe (d : Host) (v : Val) :
    ((d.field v "ptr").ival = 0 →
        Helpers.qdump__Sph__AutoPtr d v = [HostCall.putValue "nullptr"] ∧
        Helpers.qdump__Sph__RawPtr d v = [HostCall.putValue "nullptr"] ∧
        Helpers.qdump__Sph__SharedPtr d v = [HostCall.putValue "nullptr"]) ∧
    (∀ q : Val,
        (HostCall.derefCall q ∈ Helpers.qdump__Sph__AutoPtr d v ∨
         HostCall.derefCall q ∈ Helpers.qdump__Sph__RawPtr d v ∨
         HostCall.derefCall q ∈ Helpers.qdump__Sph__SharedPtr d v) →
        (d.field v "ptr").ival ≠ 0) := by
  by_cases h : (d.field v "ptr").ival = 0
  · refine ⟨fun _ => ?_, fun q hq => ?_⟩
    · simp [Helpers.qdump__Sph__AutoPtr, Helpers.qdump__Sph__RawPtr,
        Helpers.qdump__Sph__SharedPtr, h]
    · simp [Helpers.qdump__Sph__AutoPtr, Helpers.qdump__Sph__RawPtr,
        Helpers.qdump__Sph__SharedPtr, h] at hq
  · exact ⟨fun h0 => absurd h0 h, fun q _ => h⟩

/-- Claim C8, witness: on a host whose ptr member reads 0 the AutoPtr
dumper puts "nullptr", and on one whose ptr member is nonzero the
recorded dereference certifies nonzeroness. -/
theorem ptr_wrappers_null_safe_witness :
    Helpers.qdump__Sph__AutoPtr hostZ val0 = [HostCall.putValue "nullptr"] ∧
      (hostC.field val0 "ptr").ival ≠ 0 :=
  ⟨((ptr_wrappers_null_safe hostZ val0).1 rfl).1,
   (ptr_wrappers_null_safe hostC val0).2 (hostC.field val0 "ptr") (Or.inl (by decide))⟩

/-- Claim C9: the Optional dumper displays "NOTHING" exactly when the
used member reads 0; otherwise it puts a value of the resolved
template-argument type created at the Optional object's own address. -/
theorem optional_nothing_iff_unused (d : Host) (v : Val) :
    ((d.field v "used").ival = 0 →
        Helpers.qdump__Sph__Optional d v = [HostCall.putValue "NOTHING"]) ∧
    ((d.field v "used").ival ≠ 0 →
        Helpers.qdump__Sph__Optional d v =
          [HostCall.putItem (d.createValue v.address (d.templateArgument v.ty 0))]) ∧
    (HostCall.putValue "NOTHING" ∈ Helpers.qdump__Sph__Optional d v ↔
        (d.field v "used").ival = 0) := by
  by_cases h : (d.field v "used").ival = 0 <;>
    simp [Helpers.qdump__Sph__Optional, h]

/-- Claim C9, witness at concrete unset and set inputs. -/
theorem optional_nothing_witness :
    Helpers.qdump__Sph__Optional hostZ val0 = [HostCall.putValue "NOTHING"] ∧
      Helpers.qdump__Sph__Optional hostC val0 =
        [HostCall.putItem (hostC.createValue val0.address (hostC.templateArgument val0.ty 0))] :=
  ⟨(optional_nothing_iff_unused hostZ val0).1 rfl,
   (optional_nothing_iff_unused hostC val0).2.1 (by decide)⟩

/-- Claim C2: every callback of both files is lazily expandable: the
per-child display calls putSubItem and putArrayData occur only when the
host reports the node expanded, while the node's summary and declared
child count are emitted independently of the expansion state. -/
theorem all_callbacks_lazily_expandable :
    LazyExpandable Helpers.qdump____m128 ∧
    LazyExpandable Helpers.qdump____m128d ∧
    LazyExpandable Helpers.qdump__Sph__AutoPtr ∧
    LazyExpandable Helpers.qdump__Sph__RawPtr ∧
    LazyExpandable Helpers.qdump__Sph__SharedPtr ∧
    LazyExpandable Helpers.qdump__Sph__Optional ∧
    LazyExpandable Helpers.qdump__Sph__Array ∧
    LazyExpandable Helpers.qdump__Sph__ArrayView ∧
    LazyExpandable Helpers.qdump__Sph__BasicVector ∧
    LazyExpandable Helpers.qdump__Sph__TracelessTensor ∧
    LazyExpandable Helpers.qdump__Sph__SymmetricTensor ∧
    LazyExpandable QtHelpers.qdump____m128 ∧
    LazyExpandable QtHelpers.qdump____m128d ∧
    LazyExpandable QtHelpers.qdump__Sph__Array := by
  refine ⟨fun d v => ⟨fun h => ?_, fun b => ?_⟩, fun d v => ⟨fun h => ?_, fun b => ?_⟩,
    fun d v => ⟨fun h => ?_, fun b => ?_⟩, fun d v => ⟨fun h => ?_, fun b => ?_⟩,
    fun d v => ⟨fun h => ?_, fun b => ?_⟩, fun d v => ⟨fun h => ?_, fun b => ?_⟩,
    fun d v => ⟨fun h => ?_, fun b => ?_⟩, fun d v => ⟨fun h => ?_, fun b => ?_⟩,
    fun d v => ⟨fun h => ?_, fun b => ?_⟩, fun d v => ⟨fun h => ?_, fun b => ?_⟩,
    fun d v => ⟨fun h => ?_, fun b => ?_⟩, fun d v => ⟨fun h => ?_, fun b => ?_⟩,
    fun d v => ⟨fun h => ?_, fun b => ?_⟩, fun d v => ⟨fun h => ?_, fun b => ?_⟩⟩
  · simp [Helpers.qdump____m128, h, HostCall.isChildCall]
  · cases hb : d.isExpanded <;> cases b <;>
      simp [Helpers.qdump____m128, hb, HostCall.isNodeCall]
  · simp [Helpers.qdump____m128d, h, HostCall.isChildCall]
  · cases hb : d.isExpanded <;> cases b <;>
      simp [Helpers.qdump____m128d, hb, HostCall.isNodeCall]
  · by_cases hp : (d.field v "ptr").ival = 0 <;>
      simp [Helpers.qdump__Sph__AutoPtr, hp, HostCall.isChildCall]
  · rfl
  · by_cases hp : (d.field v "ptr").ival = 0 <;>
      simp [Helpers.qdump__Sph__RawPtr, hp, HostCall.isChildCall]
  · rfl
  · by_cases hp : (d.field v "ptr").ival = 0 <;>
      simp [Helpers.qdump__Sph__SharedPtr, hp, HostCall.isChildCall]
  · rfl
  · by_cases hu : (d.field v "used").ival = 0 <;>
      simp [Helpers.qdump__Sph__Optional, hu, HostCall.isChildCall]
  · rfl
  · simp [Helpers.qdump__Sph__Array, h, HostCall.isChildCall]
  · cases hb : d.isExpanded <;> cases b <;>
      simp [Helpers.qdump__Sph__Array, hb, HostCall.isNodeCall, List.filter_append,
        subItems_filter_isNodeCall]
  · simp [Helpers.qdump__Sph__ArrayView, h, HostCall.isChildCall]
  · cases hb : d.isExpanded <;> cases b <;>
      simp [Helpers.qdump__Sph__ArrayView, hb, HostCall.isNodeCall, List.filter_append,
        subItems_filter_isNodeCall]
  · simp [Helpers.qdump__Sph__BasicVector, h, HostCall.isChildCall]
  · cases hb : d.isExpanded <;> cases b <;>
      simp [Helpers.qdump__Sph__BasicVector, hb, HostCall.isNodeCall]
  · simp [Helpers.qdump__Sph__TracelessTensor, h, HostCall.isChildCall]
  · cases hb : d.isExpanded <;> cases b <;>
      simp [Helpers.qdump__Sph__TracelessTensor, hb, HostCall.isNodeCall]
  · simp [Helpers.qdump__Sph__SymmetricTensor, h, HostCall.isChildCall]
  · cases hb : d.isExpanded <;> cases b <;>
      simp [Helpers.qdump__Sph__SymmetricTensor, hb, HostCall.isNodeCall]
  · simp [QtHelpers.qdump____m128, h, HostCall.isChildCall]
  · cases hb : d.isExpanded <;> cases b <;>
      simp [QtHelpers.qdump____m128, hb, HostCall.isNodeCall]
  · simp [QtHelpers.qdump____m128d, h, HostCall.isChildCall]
  · cases hb : d.isExpanded <;> cases b <;>
      simp [QtHelpers.qdump____m128d, hb, HostCall.isNodeCall]
  · simp [QtHelpers.qdump__Sph__Array, h, HostCall.isChildCall]
  · cases hb : d.isExpanded <;> cases b <;>
      simp [QtHelpers.qdump__Sph__Array, hb, HostCall.isNodeCall, List.filter_append,
        subItemsNoCast_filter_isNodeCall]

/-- Claim C2, witness: on a concrete collapsed host the Array dumper of
src/helpers.py emits no per-child display call. -/
theorem all_callbacks_lazily_expandable_witness :
    (Helpers.qdump__Sph__Array hostC val0).filter HostCall.isChildCall = [] :=
  (all_callbacks_lazily_expandable.2.2.2.2.2.2.1 hostC val0).1 rfl

/-- Claim C7: every callback is deterministic and free of shared state:
its trace of host calls is a function of the dumper context d (which
carries all host responses made during the call) and the inspected
value alone, so two invocations with identical inputs and identical
host responses perform identical sequences of host calls. -/
theorem callbacks_deterministic (dA dB : Host) (vA vB : Val)
    (hd : dA = dB) (hv : vA = vB) :
    Helpers.qdump____m128 dA vA = Helpers.qdump____m128 dB vB ∧
    Helpers.qdump____m128d dA vA = Helpers.qdump____m128d dB vB ∧
    Helpers.qdump__Sph__AutoPtr dA vA = Helpers.qdump__Sph__AutoPtr dB vB ∧
    Helpers.qdump__Sph__RawPtr dA vA = Helpers.qdump__Sph__RawPtr dB vB ∧
    Helpers.qdump__Sph__SharedPtr dA vA = Helpers.qdump__Sph__SharedPtr dB vB ∧
    Helpers.qdump__Sph__Optional dA vA = Helpers.qdump__Sph__Optional dB vB ∧
    Helpers.qdump__Sph__Array dA vA = Helpers.qdump__Sph__Array dB vB ∧
    Helpers.qdump__Sph__ArrayView dA vA = Helpers.qdump__Sph__ArrayView dB vB ∧
    Helpers.qdump__Sph__BasicVector dA vA = Helpers.qdump__Sph__BasicVector dB vB ∧
    Helpers.qdump__Sph__TracelessTensor dA vA = Helpers.qdump__Sph__TracelessTensor dB vB ∧
    Helpers.qdump__Sph__SymmetricTensor dA vA = Helpers.qdump__Sph__SymmetricTensor dB vB ∧
    QtHelpers.qdump____m128 dA vA = QtHelpers.qdump____m128 dB vB ∧
    QtHelpers.qdump____m128d dA vA = QtHelpers.qdump____m128d dB vB ∧
    QtHelpers.qdump__Sph__Array dA vA = QtHelpers.qdump__Sph__Array dB vB := by
  subst hd
  subst hv
  exact ⟨rfl, rfl, rfl, rfl, rfl, rfl, rfl, rfl, rfl, rfl, rfl, rfl, rfl, rfl⟩

/-- Claim C7, witness at a concrete host and value. -/
theorem callbacks_deterministic_witness :
    Helpers.qdump__Sph__Array hostE val0 = Helpers.qdump__Sph__Array hostE val0 :=
  (callbacks_deterministic hostE hostE val0 val0 rfl rfl).2.2.2.2.2.2.1

/-- The putSubItem calls of the helpers.py Array dumper on an expanded
node: one per index below actSize, showing the dereference of the data
pointer advanced by the index, cast to the template argument. -/
theorem qdumpArray_filter_isSubItem (d : Host) (v : Val) (hexp : d.isExpanded = true) :
    (Helpers.qdump__Sph__Array d v).filter HostCall.isSubItem =
      (List.range (d.field v "actSize").ival.toNat).map (fun i =>
        HostCall.putSubItem (ChildKey.idx i)
          ((d.deref (d.ptrAdd (d.field v "data") i)).cast
            (d.templateArgument v.ty 0))) := by
  simp [Helpers.qdump__Sph__Array, hexp, HostCall.isSubItem, List.filter_append,
    subItems_filter_isSubItem]

/-- The putSubItem calls of the helpers.py ArrayView dumper on an
expanded node. -/
theorem qdumpArrayView_filter_isSubItem (d : Host) (v : Val) (hexp : d.isExpanded = true) :
    (Helpers.qdump__Sph__ArrayView d v).filter HostCall.isSubItem =
      (List.range (d.field v "actSize").ival.toNat).map (fun i =>
        HostCall.putSubItem (ChildKey.idx i)
          ((d.deref (d.ptrAdd (d.field v "data") i)).cast
            (d.templateArgument v.ty 0))) := by
  simp [Helpers.qdump__Sph__ArrayView, hexp, HostCall.isSubItem, List.filter_append,
    subItems_filter_isSubItem]

/-- Claim C3: with actSize reading n (n nonnegative), the Array and
ArrayView dumpers declare exactly n children via putNumChild, and when
expanded they emit exactly n putSubItem calls, indexed 0..n-1 in order,
the i-th showing the dereference of the data pointer advanced by i
element positions (cast to the resolved template argument); in
particular the number of emitted children equals n. -/
theorem array_children_linear (d : Host) (v : Val)
    (hn : 0 ≤ (d.field v "actSize").ival) :
    (HostCall.putNumChild (d.field v "actSize").ival ∈ Helpers.qdump__Sph__Array d v ∧
      (d.isExpanded = true →
        (Helpers.qdump__Sph__Array d v).filter HostCall.isSubItem =
          (List.range (d.field v "actSize").ival.toNat).map (fun i =>
            HostCall.putSubItem (ChildKey.idx i)
              ((d.deref (d.ptrAdd (d.field v "data") i)).cast
                (d.templateArgument v.ty 0)))) ∧
      (d.isExpanded = true →
        (((Helpers.qdump__Sph__Array d v).filter HostCall.isSubItem).length : Int) =
          (d.field v "actSize").ival)) ∧
    (HostCall.putNumChild (d.field v "actSize").ival ∈ Helpers.qdump__Sph__ArrayView d v ∧
      (d.isExpanded = true →
        (Helpers.qdump__Sph__ArrayView d v).filter HostCall.isSubItem =
          (List.range (d.field v "actSize").ival.toNat).map (fun i =>
            HostCall.putSubItem (ChildKey.idx i)
              ((d.deref (d.ptrAdd (d.field v "data") i)).cast
                (d.templateArgument v.ty 0)))) ∧
      (d.isExpanded = true →
        (((Helpers.qdump__Sph__ArrayView d v).filter HostCall.isSubItem).length : Int) =
          (d.field v "actSize").ival)) := by
  refine ⟨⟨?_, qdumpArray_filter_isSubItem d v, fun hexp => ?_⟩,
    ⟨?_, qdumpArrayView_filter_isSubItem d v, fun hexp => ?_⟩⟩
  · simp [Helpers.qdump__Sph__Array]
  · rw [qdumpArray_filter_isSubItem d v hexp, List.length_map, List.length_range]
    exact Int.toNat_of_nonneg hn
  · simp [Helpers.qdump__Sph__ArrayView]
  · rw [qdumpArrayView_filter_isSubItem d v hexp, List.length_map, List.length_range]
    exact Int.toNat_of_nonneg hn

/-- Claim C3, witness: on a concrete expanded host with actSize reading
2 the emitted putSubItem count equals actSize. -/
theorem array_children_linear_witness :
    (((Helpers.qdump__Sph__Array hostE val0).filter HostCall.isSubItem).length : Int) =
      (hostE.field val0 "actSize").ival :=
  (array_children_linear hostE val0 (by decide)).1.2.2 rfl

/-- Claim C4: the vector and tensor dumpers create their components at
fixed numeric 8-byte offsets, for any host and hence for any resolved
element type: BasicVector puts x, y, z, h at base + 0, 8, 16, 24;
TracelessTensor puts its five doubles at base + 0, 8, 16, 24, 32;
SymmetricTensor puts three doubles at diag + 0, 8, 16 and three at
off + 0, 8, 16. -/
theorem fixed_eight_byte_offsets (d : Host) (v : Val) (hexp : d.isExpanded = true) :
    Helpers.qdump__Sph__BasicVector d v =
      [HostCall.putNumChild 4,
       HostCall.childrenBegin 4 (d.templateArgument v.ty 0),
       HostCall.putSubItem (ChildKey.name "x")
         (d.createValue v.address (d.templateArgument v.ty 0)),
       HostCall.putSubItem (ChildKey.name "y")
         (d.createValue (v.address + 8) (d.templateArgument v.ty 0)),
       HostCall.putSubItem (ChildKey.name "z")
         (d.createValue (v.address + 16) (d.templateArgument v.ty 0)),
       HostCall.putSubItem (ChildKey.name "h")
         (d.createValue (v.address + 24) (d.templateArgument v.ty 0)),
       HostCall.childrenEnd] ∧
    Helpers.qdump__Sph__TracelessTensor d v =
      [HostCall.putNumChild 5,
       HostCall.childrenBegin 5 (d.lookupType "double"),
       HostCall.putSubItem (ChildKey.name "sxx")
         (d.createValue v.address (d.lookupType "double")),
       HostCall.putSubItem (ChildKey.name "syy")
         (d.createValue (v.address + 8) (d.lookupType "double")),
       HostCall.putSubItem (ChildKey.name "sxy")
         (d.createValue (v.address + 16) (d.lookupType "double")),
       HostCall.putSubItem (ChildKey.name "sxz")
         (d.createValue (v.address + 24) (d.lookupType "double")),
       HostCall.putSubItem (ChildKey.name "syz")
         (d.createValue (v.address + 32) (d.lookupType "double")),
       HostCall.childrenEnd] ∧
    Helpers.qdump__Sph__SymmetricTensor d v =
      [HostCall.putNumChild 6,
       HostCall.childrenBegin 6 (d.lookupType "double"),
       HostCall.putSubItem (ChildKey.name "sxx")
         (d.createValue (d.field v "diag").address (d.lookupType "double")),
       HostCall.putSubItem (ChildKey.name "syy")
         (d.createValue ((d.field v "diag").address + 8) (d.lookupType "double")),
       HostCall.putSubItem (ChildKey.name "szz")
         (d.createValue ((d.field v "diag").address + 16) (d.lookupType "double")),
       HostCall.putSubItem (ChildKey.name "sxy")
         (d.createValue (d.field v "off").address (d.lookupType "double")),
       HostCall.putSubItem (ChildKey.name "sxz")
         (d.createValue ((d.field v "off").address + 8) (d.lookupType "double")),
       HostCall.putSubItem (ChildKey.name "syz")
         (d.createValue ((d.field v "off").address + 16) (d.lookupType "double")),
       HostCall.childrenEnd] := by
  refine ⟨?_, ?_, ?_⟩
  · simp [Helpers.qdump__Sph__BasicVector, hexp]
  · simp [Helpers.qdump__Sph__TracelessTensor, hexp]
  · simp [Helpers.qdump__Sph__SymmetricTensor, hexp]

/-- Claim C4, witness: the BasicVector trace at a concrete expanded
host shows the components at offsets 0, 8, 16, 24. -/
theorem fixed_eight_byte_offsets_witness :
    Helpers.qdump__Sph__BasicVector hostE val0 =
      [HostCall.putNumChild 4,
       HostCall.childrenBegin 4 (hostE.templateArgument val0.ty 0),
       HostCall.putSubItem (ChildKey.name "x")
         (hostE.createValue val0.address (hostE.templateArgument val0.ty 0)),
       HostCall.putSubItem (ChildKey.name "y")
         (hostE.createValue (val0.address + 8) (hostE.templateArgument val0.ty 0)),
       HostCall.putSubItem (ChildKey.name "z")
         (hostE.createValue (val0.address + 16) (hostE.templateArgument val0.ty 0)),
       HostCall.putSubItem (ChildKey.name "h")
         (hostE.createValue (val0.address + 24) (hostE.templateArgument val0.ty 0)),
       HostCall.childrenEnd] :=
  (fixed_eight_byte_offsets hostE val0 rfl).1

/-- Claim C5: the Array, ArrayView, Optional and BasicVector dumpers
give every child value they create or cast exactly the type resolved as
the first template argument of the inspected value's own type. -/
theorem template_argument_child_types (d : Host) (v : Val) :
    (∀ t ∈ (Helpers.qdump__Sph__Array d v).filterMap HostCall.childValTy,
        t = d.templateArgument v.ty 0) ∧
    (∀ t ∈ (Helpers.qdump__Sph__ArrayView d v).filterMap HostCall.childValTy,
        t = d.templateArgument v.ty 0) ∧
    (∀ t ∈ (Helpers.qdump__Sph__Optional d v).filterMap HostCall.childValTy,
        t = d.templateArgument v.ty 0) ∧
    (∀ t ∈ (Helpers.qdump__Sph__BasicVector d v).filterMap HostCall.childValTy,
        t = d.templateArgument v.ty 0) := by
  refine ⟨?_, ?_, ?_, ?_⟩
  · cases hexp : d.isExpanded
    · intro t ht
      simp [Helpers.qdump__Sph__Array, hexp, HostCall.childValTy] at ht
    · intro t ht
      simp [Helpers.qdump__Sph__Array, hexp, HostCall.childValTy,
        subItems_childValTy, List.mem_replicate] at ht
      exact ht.2
  · cases hexp : d.isExpanded
    · intro t ht
      simp [Helpers.qdump__Sph__ArrayView, hexp, HostCall.childValTy] at ht
    · intro t ht
      simp [Helpers.qdump__Sph__ArrayView, hexp, HostCall.childValTy,
        subItems_childValTy, List.mem_replicate] at ht
      exact ht.2
  · by_cases hu : (d.field v "used").ival = 0
    · intro t ht
      simp [Helpers.qdump__Sph__Optional, hu, HostCall.childValTy] at ht
    · intro t ht
      simp [Helpers.qdump__Sph__Optional, hu, HostCall.childValTy, Host.createValue] at ht
      exact ht
  · cases hexp : d.isExpanded
    · intro t ht
      simp [Helpers.qdump__Sph__BasicVector, hexp, HostCall.childValTy] at ht
    · intro t ht
      simp [Helpers.qdump__Sph__BasicVector, hexp, HostCall.childValTy,
        Host.createValue] at ht
      exact ht

/-- Claim C5, witness: on a concrete expanded host the Array dumper's
children carry the resolved template-argument type E. -/
theorem template_argument_child_types_witness :
    ("E" : Ty) = hostE.templateArgument val0.ty 0 :=
  (template_argument_child_types hostE val0).1 "E" (by decide)

/-- Claim C10: for every callback that declares a child count with
putNumChild and emits children via putSubItem, the number of putSubItem
calls on an expanded node equals the declared count: actSize for Array
and ArrayView (when actSize is nonnegative), 4 for BasicVector, 5 for
TracelessTensor, 6 for SymmetricTensor. -/
theorem putNumChild_matches_subitem_count (d : Host) (v : Val)
    (hexp : d.isExpanded = true) (hn : 0 ≤ (d.field v "actSize").ival) :
    ((((Helpers.qdump__Sph__Array d v).filter HostCall.isSubItem).length : Int) =
        (d.field v "actSize").ival ∧
      HostCall.putNumChild (d.field v "actSize").ival ∈ Helpers.qdump__Sph__Array d v) ∧
    ((((Helpers.qdump__Sph__ArrayView d v).filter HostCall.isSubItem).length : Int) =
        (d.field v "actSize").ival ∧
      HostCall.putNumChild (d.field v "actSize").ival ∈ Helpers.qdump__Sph__ArrayView d v) ∧
    (((Helpers.qdump__Sph__BasicVector d v).filter HostCall.isSubItem).length = 4 ∧
      HostCall.putNumChild 4 ∈ Helpers.qdump__Sph__BasicVector d v) ∧
    (((Helpers.qdump__Sph__TracelessTensor d v).filter HostCall.isSubItem).length = 5 ∧
      HostCall.putNumChild 5 ∈ Helpers.qdump__Sph__TracelessTensor d v) ∧
    (((Helpers.qdump__Sph__SymmetricTensor d v).filter HostCall.isSubItem).length = 6 ∧
      HostCall.putNumChild 6 ∈ Helpers.qdump__Sph__SymmetricTensor d v) := by
  refine ⟨⟨?_, ?_⟩, ⟨?_, ?_⟩, ⟨?_, ?_⟩, ⟨?_, ?_⟩, ⟨?_, ?_⟩⟩
  · rw [qdumpArray_filter_isSubItem d v hexp, List.length_map, List.length_range]
    exact Int.toNat_of_nonneg hn
  · simp [Helpers.qdump__Sph__Array]
  · rw [qdumpArrayView_filter_isSubItem d v hexp, List.length_map, List.length_range]
    exact Int.toNat_of_nonneg hn
  · simp [Helpers.qdump__Sph__ArrayView]
  · simp [Helpers.qdump__Sph__BasicVector, hexp, HostCall.isSubItem]
  · simp [Helpers.qdump__Sph__BasicVector]
  · simp [Helpers.qdump__Sph__TracelessTensor, hexp, HostCall.isSubItem]
  · simp [Helpers.qdump__Sph__TracelessTensor]
  · simp [Helpers.qdump__Sph__SymmetricTensor, hexp, HostCall.isSubItem]
  · simp [Helpers.qdump__Sph__SymmetricTensor]

/-- Claim C10, witness: the BasicVector dumper on a concrete expanded
host emits exactly the 4 children it declares. -/
theorem putNumChild_matches_subitem_count_witness :
    ((Helpers.qdump__Sph__BasicVector hostE val0).filter HostCall.isSubItem).length = 4 :=
  (putNumChild_matches_subitem_count hostE val0 rfl (by decide)).2.2.1.1
